import Mathlib

/-!
Verification of the BDPT integrator core (`src/integrators/bdpt.rs`) against
its natural-language specification.

The shallow embedding below models `Float` as `ℚ` (exact field arithmetic,
no rounding), spectra as RGB triples, and the external collaborators
(scene intersection, BSDF sampling, camera/light interfaces, the square
root routine of the float library) as function-valued record fields, so
that every definition is executable and the bdpt.rs control flow is
translated statement by statement.  Fallible operations (vector indexing,
`Option::unwrap`) are made explicit with `Except`.
-/

namespace RsPbrt

set_option linter.unusedVariables false

/-- Run-time aborts of the translated code: an out-of-bounds vector index,
a failed `Option::unwrap`, or exhaustion of the explicit loop fuel. -/
inductive RtAbort where
  | indexPanic
  | unwrapPanic
  | fuelOut
deriving DecidableEq, Repr

/-- Model of `Vector3f` from `core::geometry`, with `ℚ` components. -/
structure Vector3f where
  x : ℚ
  y : ℚ
  z : ℚ
deriving DecidableEq, Repr

/-- Model of `Point3f` from `core::geometry`. -/
structure Point3f where
  x : ℚ
  y : ℚ
  z : ℚ
deriving DecidableEq, Repr

/-- Model of `Normal3f` from `core::geometry`. -/
structure Normal3f where
  x : ℚ
  y : ℚ
  z : ℚ
deriving DecidableEq, Repr

def Vector3f.zero : Vector3f := ⟨0, 0, 0⟩

def Point3f.zero : Point3f := ⟨0, 0, 0⟩

def Normal3f.zero : Normal3f := ⟨0, 0, 0⟩

/-- Model of `next.p() - self.p()`: difference of two points is a vector. -/
def Point3f.sub (a b : Point3f) : Vector3f := ⟨a.x - b.x, a.y - b.y, a.z - b.z⟩

def Vector3f.neg (v : Vector3f) : Vector3f := ⟨-v.x, -v.y, -v.z⟩

/-- Model of `w * s` for a vector and a scalar. -/
def Vector3f.smul (v : Vector3f) (s : ℚ) : Vector3f := ⟨v.x * s, v.y * s, v.z * s⟩

def Vector3f.length_squared (v : Vector3f) : ℚ := v.x * v.x + v.y * v.y + v.z * v.z

/-- Model of `Normal3f::from(v)` (componentwise). -/
def Normal3f.fromVector (v : Vector3f) : Normal3f := ⟨v.x, v.y, v.z⟩

/-- Model of `nrm_abs_dot_vec3` from `core::geometry`: absolute dot product of a
normal and a vector. -/
def nrm_abs_dot_vec3 (n : Normal3f) (v : Vector3f) : ℚ :=
  |n.x * v.x + n.y * v.y + n.z * v.z|

/-- Model of `vec3_abs_dot_nrm` from `core::geometry`. -/
def vec3_abs_dot_nrm (v : Vector3f) (n : Normal3f) : ℚ :=
  |v.x * n.x + v.y * n.y + v.z * n.z|

/-- Model of `Ray` from `core::geometry`.  The `t_max` bound and the ray
differentials are not modelled: no claim depends on them (bdpt.rs only
reads `o`, `d` and `time` of the rays it constructs). -/
structure Ray where
  o : Point3f
  d : Vector3f
  time : ℚ
deriving DecidableEq, Repr

def Ray.zero : Ray := ⟨Point3f.zero, Vector3f.zero, 0⟩

/-- Modelled from the spec: spectral/color representation is an external
collaborator ("irradiance is treated as an opaque weighted quantity").
`core::pbrt::Spectrum` is an RGB triple; `Default` yields the black
(all-zero) spectrum. -/
structure Spectrum where
  r : ℚ
  g : ℚ
  b : ℚ
deriving DecidableEq, Repr

def Spectrum.zero : Spectrum := ⟨0, 0, 0⟩

/-- Model of `Spectrum::new(c)`: a constant spectrum. -/
def Spectrum.ofScalar (c : ℚ) : Spectrum := ⟨c, c, c⟩

/-- Componentwise product of two spectra. -/
def Spectrum.mul (a b : Spectrum) : Spectrum := ⟨a.r * b.r, a.g * b.g, a.b * b.b⟩

/-- Product of a spectrum and a scalar. -/
def Spectrum.scale (a : Spectrum) (k : ℚ) : Spectrum := ⟨a.r * k, a.g * k, a.b * k⟩

/-- Quotient of a spectrum by a scalar. -/
def Spectrum.divScalar (a : Spectrum) (k : ℚ) : Spectrum := ⟨a.r / k, a.g / k, a.b / k⟩

/-- Model of `Spectrum::is_black`: every channel is zero. -/
def Spectrum.is_black (a : Spectrum) : Bool := decide (a.r = 0 ∧ a.g = 0 ∧ a.b = 0)

/-- Model of `TransportMode` from `core::material`. -/
inductive TransportMode where
  | Radiance
  | Importance
deriving DecidableEq, Repr

/-- Modelled from the spec: light capability flags (§6, "capability flags
(delta-position, delta-direction, infinite-extent)"), with the crate's
bit encoding from `core::light::LightFlags`. -/
def lightFlagDeltaPosition : ℕ := 1

def lightFlagDeltaDirection : ℕ := 2

def lightFlagArea : ℕ := 4

def lightFlagInfinite : ℕ := 8

/-- Modelled from the spec: BSDF capability flags distinguishing
diffuse/glossy/specular and reflective/transmissive components (§6),
with the crate's bit encoding from `core::reflection::BxdfType`. -/
def bxdfReflection : ℕ := 1

def bxdfTransmission : ℕ := 2

def bxdfDiffuse : ℕ := 4

def bxdfGlossy : ℕ := 8

def bxdfSpecular : ℕ := 16

def bxdfAll : ℕ := 31

/-- Result of `Bsdf::sample_f` (the Rust function returns the weight and
writes `wi`, the density and the sampled component flags through `&mut`
out-parameters). -/
structure BsdfSample where
  f : Spectrum
  wi : Vector3f
  pdfVal : ℚ
  sampledType : ℕ
deriving Repr

/-- Modelled from the spec: the surface scattering function contract (§6):
`sample`, `evaluate_density` (`pdf`) and `component_count`
(`num_components`). -/
structure Bsdf where
  sample_f : Vector3f → ℚ × ℚ → ℕ → BsdfSample
  pdf : Vector3f → Vector3f → ℕ → ℚ
  num_components : ℕ → ℕ

/-- Model of `SurfaceInteraction` from `core::interaction`, restricted to the
fields bdpt.rs reads: position, time, error bound, outgoing direction,
geometric normal, shading normal and the optional BSDF. -/
structure SurfaceInteraction where
  p : Point3f
  time : ℚ
  p_error : Vector3f
  wo : Vector3f
  n : Normal3f
  shading_n : Normal3f
  bsdf : Option Bsdf

/-- Model of `SurfaceInteraction::default()`: all fields zero, no BSDF. -/
def defaultSurfaceInteraction : SurfaceInteraction :=
  { p := Point3f.zero, time := 0, p_error := Vector3f.zero, wo := Vector3f.zero,
    n := Normal3f.zero, shading_n := Normal3f.zero, bsdf := none }

/-- Result of `Light::sample_le` (radiance plus the `&mut` out-parameters
of the Rust signature). -/
structure LeSample where
  le : Spectrum
  ray : Ray
  n_light : Normal3f
  pdf_pos : ℚ
  pdf_dir : ℚ

/-- Modelled from the spec: the light contract (§6): capability flags,
`sample_emission` (`sample_le`) and `directional_emission_density`
(`pdf_li`). -/
structure Light where
  flags : ℕ
  sample_le : ℚ × ℚ → ℚ × ℚ → ℚ → LeSample
  pdf_li : SurfaceInteraction → Vector3f → ℚ

/-- Model of `CameraSample` from `core::camera`. -/
structure CameraSample where
  p_film : ℚ × ℚ
  time : ℚ
  p_lens : ℚ × ℚ

/-- Modelled from the spec: the camera contract (§6): ray generation with
its weight, and the directional sampling density `pdf_we`. -/
structure Camera where
  generate_ray_differential : CameraSample → ℚ × Ray
  pdf_we : Ray → ℚ × ℚ

/-- Model of `EndpointInteraction` from bdpt.rs. -/
structure EndpointInteraction where
  p : Point3f
  time : ℚ
  p_error : Vector3f
  wo : Vector3f
  n : Normal3f
  camera : Option Camera
  light : Option Light

/-- Model of `EndpointInteraction::new(p, time)`: remaining fields default. -/
def EndpointInteraction.new (p : Point3f) (time : ℚ) : EndpointInteraction :=
  { p := p, time := time, p_error := Vector3f.zero, wo := Vector3f.zero,
    n := Normal3f.zero, camera := none, light := none }

/-- Model of `EndpointInteraction::new_camera`. -/
def EndpointInteraction.new_camera (camera : Camera) (ray : Ray) : EndpointInteraction :=
  { EndpointInteraction.new ray.o ray.time with camera := some camera }

/-- Model of `EndpointInteraction::new_light`. -/
def EndpointInteraction.new_light (light : Light) (ray : Ray) (nl : Normal3f) :
    EndpointInteraction :=
  { EndpointInteraction.new ray.o ray.time with light := some light, n := nl }

/-- Model of `EndpointInteraction::new_ray`: normal set to `-ray.d`. -/
def EndpointInteraction.new_ray (ray : Ray) : EndpointInteraction :=
  { EndpointInteraction.new ray.o ray.time with n := Normal3f.fromVector ray.d.neg }

/-- Model of `VertexType` from bdpt.rs. -/
inductive VertexType where
  | Camera
  | Light
  | Surface
  | Medium
deriving DecidableEq, Repr

/-- Model of `Vertex` from bdpt.rs. -/
structure Vertex where
  vertex_type : VertexType
  beta : Spectrum
  ei : Option EndpointInteraction
  si : Option SurfaceInteraction
  delta : Bool
  pdf_fwd : ℚ
  pdf_rev : ℚ

/-- Model of `Vertex::new`. -/
def Vertex.new (vertex_type : VertexType) (ei : EndpointInteraction) (beta : Spectrum) :
    Vertex :=
  { vertex_type := vertex_type, beta := beta, ei := some ei, si := none,
    delta := false, pdf_fwd := 0, pdf_rev := 0 }

/-- Model of `Vertex::create_camera`. -/
def Vertex.create_camera (camera : Camera) (ray : Ray) (beta : Spectrum) : Vertex :=
  Vertex.new VertexType.Camera (EndpointInteraction.new_camera camera ray) beta

/-- Model of `Vertex::create_light_interaction`. -/
def Vertex.create_light_interaction (ei : EndpointInteraction) (beta : Spectrum)
    (pdf : ℚ) : Vertex :=
  { Vertex.new VertexType.Light ei beta with pdf_fwd := pdf }

/-- Model of `Vertex::create_light`.  Note: the Rust function receives a `pdf`
argument but never stores it; the vertex keeps the `pdf_fwd = 0` set by
`Vertex::new`. -/
def Vertex.create_light (light : Light) (ray : Ray) (nl : Normal3f) (le : Spectrum)
    (pdf : ℚ) : Vertex :=
  Vertex.new VertexType.Light (EndpointInteraction.new_light light ray nl) le

/-- Model of `Vertex::p`. -/
def Vertex.p (v : Vertex) : Point3f :=
  match v.vertex_type with
  | VertexType.Medium => Point3f.zero
  | VertexType.Surface =>
    match v.si with
    | some si => si.p
    | none => Point3f.zero
  | _ =>
    match v.ei with
    | some ei => ei.p
    | none => Point3f.zero

/-- Model of `Vertex::time`. -/
def Vertex.time (v : Vertex) : ℚ :=
  match v.vertex_type with
  | VertexType.Medium => 0
  | VertexType.Surface =>
    match v.si with
    | some si => si.time
    | none => 0
  | _ =>
    match v.ei with
    | some ei => ei.time
    | none => 0

/-- Model of `Vertex::ng`. -/
def Vertex.ng (v : Vertex) : Normal3f :=
  match v.vertex_type with
  | VertexType.Medium => Normal3f.zero
  | VertexType.Surface =>
    match v.si with
    | some si => si.n
    | none => Normal3f.zero
  | _ =>
    match v.ei with
    | some ei => ei.n
    | none => Normal3f.zero

/-- Model of `Vertex::is_on_surface`: the geometric normal is non-degenerate. -/
def Vertex.is_on_surface (v : Vertex) : Bool := decide (v.ng ≠ Normal3f.zero)

/-- Model of `Vertex::is_connectible`.  The Rust `match` covers all four variants
of the closed enum; its trailing `_ => panic!` arm is unreachable and has
no counterpart here. -/
def Vertex.is_connectible (v : Vertex) : Bool :=
  match v.vertex_type with
  | VertexType.Medium => true
  | VertexType.Light =>
    match v.ei with
    | some ei =>
      match ei.light with
      | some light => decide (light.flags &&& lightFlagDeltaDirection = 0)
      | none => false
    | none => false
  | VertexType.Camera => true
  | VertexType.Surface =>
    match v.si with
    | some si =>
      match si.bsdf with
      | some bsdf =>
        decide (0 < bsdf.num_components
          (bxdfDiffuse ||| bxdfGlossy ||| bxdfReflection ||| bxdfTransmission))
      | none => false
    | none => false

/-- Model of `Vertex::is_infinite_light`. -/
def Vertex.is_infinite_light (v : Vertex) : Bool :=
  if v.vertex_type ≠ VertexType.Light then false
  else
    match v.ei with
    | some ei =>
      match ei.light with
      | some light =>
        if light.flags &&& lightFlagInfinite = lightFlagInfinite then true
        else if light.flags &&& lightFlagDeltaDirection = lightFlagDeltaDirection then true
        else false
      | none => false
    | none => false

/-- Model of `Vertex::convert_density`.  `sq` is the square-root routine of the
float library (`Float::sqrt`), an external operation kept abstract. -/
def Vertex.convert_density (sq : ℚ → ℚ) (v : Vertex) (pdf : ℚ) (next : Vertex) : ℚ :=
  if next.is_infinite_light then pdf
  else
    let w : Vector3f := Point3f.sub next.p v.p
    if w.length_squared = 0 then 0
    else
      let inv_dist_2 : ℚ := 1 / w.length_squared
      let pdf1 : ℚ :=
        if next.is_on_surface then pdf * nrm_abs_dot_vec3 next.ng (w.smul (sq inv_dist_2))
        else pdf
      pdf1 * inv_dist_2

/-- Model of `Vertex::create_surface_interaction`: the stored `pdf_fwd` is the
predecessor's density conversion of the incoming solid-angle density. -/
def Vertex.create_surface_interaction (sq : ℚ → ℚ) (si : SurfaceInteraction)
    (beta : Spectrum) (pdf : ℚ) (prev : Vertex) : Vertex :=
  let v : Vertex :=
    { vertex_type := VertexType.Surface, beta := beta, ei := none, si := some si,
      delta := false, pdf_fwd := 0, pdf_rev := 0 }
  { v with pdf_fwd := prev.convert_density sq pdf v }

/-- Modelled from the spec: the convert-density rule in the words of
claim C1 — unchanged density toward an infinite light; zero for
coincident positions; otherwise the density times the absolute cosine
between the geometric normal of `next` and the normalized connecting
direction (when `next` is on a surface) divided by the squared
distance. -/
def convert_density_claim (sq : ℚ → ℚ) (v : Vertex) (pdf : ℚ) (next : Vertex) : ℚ :=
  if next.is_infinite_light then pdf
  else
    let w : Vector3f := Point3f.sub next.p v.p
    if w.length_squared = 0 then 0
    else
      let cosFactor : ℚ :=
        if next.is_on_surface then
          nrm_abs_dot_vec3 next.ng (w.smul (sq (1 / w.length_squared)))
        else 1
      pdf * cosFactor / w.length_squared

/-- Claim C1: `convert_density` returns the density unchanged when the
next vertex is an infinite light; returns 0 when the two positions
coincide; and otherwise returns the density divided by the squared
distance, additionally multiplied by the absolute cosine between the
next vertex's geometric normal and the normalized connecting direction
when the next vertex is on a surface. -/
theorem c1_convert_density_matches_claim (sq : ℚ → ℚ) (v next : Vertex) (pdf : ℚ) :
    Vertex.convert_density sq v pdf next = convert_density_claim sq v pdf next := by
  unfold Vertex.convert_density convert_density_claim
  by_cases hinf : next.is_infinite_light
  · simp [hinf]
  · simp only [hinf, Bool.false_eq_true, if_false]
    by_cases hz : (Point3f.sub next.p v.p).length_squared = 0
    · simp [hz]
    · simp only [hz, if_false]
      by_cases hs : next.is_on_surface
      · simp only [hs, if_true]
        rw [div_eq_mul_inv]
        ring
      · simp only [hs, Bool.false_eq_true, if_false]
        rw [div_eq_mul_inv]
        ring

/-- Claim C2: `is_connectible` is true for medium and camera vertices;
for a light vertex carrying a light it is true iff the light lacks the
delta-direction flag; for a surface vertex carrying a scattering
function it is true iff that function has at least one non-specular
(diffuse/glossy, reflective/transmissive) component.  The fatal arm for
any other variant is vacuous: the variant enum is closed with exactly
these four constructors. -/
theorem c2_is_connectible_cases (v : Vertex) :
    (v.vertex_type = VertexType.Medium → v.is_connectible = true) ∧
    (v.vertex_type = VertexType.Camera → v.is_connectible = true) ∧
    (∀ e l, v.vertex_type = VertexType.Light → v.ei = some e → e.light = some l →
      (v.is_connectible = true ↔ l.flags &&& lightFlagDeltaDirection = 0)) ∧
    (∀ s b, v.vertex_type = VertexType.Surface → v.si = some s → s.bsdf = some b →
      (v.is_connectible = true ↔
        0 < b.num_components
          (bxdfDiffuse ||| bxdfGlossy ||| bxdfReflection ||| bxdfTransmission))) := by
  refine ⟨?_, ?_, ?_, ?_⟩
  · intro h
    unfold Vertex.is_connectible
    rw [h]
  · intro h
    unfold Vertex.is_connectible
    rw [h]
  · intro e l h he hl
    unfold Vertex.is_connectible
    rw [h, he]
    simp [hl]
  · intro s b h hs hb
    unfold Vertex.is_connectible
    rw [h, hs]
    simp [hb]

/-- A concrete delta-direction light for witnesses and counterexamples. -/
def deltaDirLight : Light :=
  { flags := lightFlagDeltaDirection,
    sample_le := fun _ _ _ =>
      { le := Spectrum.zero, ray := Ray.zero, n_light := Normal3f.zero,
        pdf_pos := 0, pdf_dir := 0 },
    pdf_li := fun _ _ => 0 }

/-- A concrete light vertex whose light has the delta-direction flag. -/
def deltaDirLightVertex : Vertex :=
  Vertex.new VertexType.Light
    (EndpointInteraction.new_light deltaDirLight Ray.zero Normal3f.zero) Spectrum.zero

theorem c2_is_connectible_cases_witness :
    (deltaDirLightVertex.is_connectible = true ↔
      deltaDirLight.flags &&& lightFlagDeltaDirection = 0) ∧
    deltaDirLightVertex.is_connectible = false := by
  have h := (c2_is_connectible_cases deltaDirLightVertex).2.2.1
    (EndpointInteraction.new_light deltaDirLight Ray.zero Normal3f.zero) deltaDirLight
    rfl rfl rfl
  exact ⟨h, by decide⟩

/-- Claim C3 (refuted): `Vertex::create_light` accepts the density
`pdf_pos * light_pdf` computed by `generate_light_subpath` but drops it,
so the light endpoint vertex always keeps `pdf_fwd = 0` regardless of
the positional density and the light-selection probability. -/
theorem c3_create_light_drops_pdf (light : Light) (ray : Ray) (nl : Normal3f)
    (le : Spectrum) (pdf : ℚ) :
    (Vertex.create_light light ray nl le pdf).pdf_fwd = 0 := rfl

/-- The scene together with the external collaborator routines consumed
by `random_walk`: the intersection oracle, `compute_scattering_functions`
and `SurfaceInteraction::spawn_ray` from `core::interaction`, and the
float library's square root.  `lights` and `infinite_lights` are the
scene's light collections. -/
structure Scene where
  lights : List Light
  infinite_lights : List Light
  intersect : Ray → Option SurfaceInteraction
  compute_scattering : SurfaceInteraction → Ray → Bool → TransportMode → SurfaceInteraction
  spawn_ray_surf : SurfaceInteraction → Vector3f → Ray
  sq : ℚ → ℚ

/-- Modelled from the spec: the sample source contract (§6): `next_1D`
and `next_2D` drawing from an exclusive stream (an exhausted stream
yields zeros). -/
structure Sampler where
  ones : List ℚ
  twos : List (ℚ × ℚ)

def Sampler.get_1d (s : Sampler) : ℚ × Sampler :=
  (s.ones.headD 0, { s with ones := s.ones.tail })

def Sampler.get_2d (s : Sampler) : (ℚ × ℚ) × Sampler :=
  (s.twos.headD (0, 0), { s with twos := s.twos.tail })

/-- Model of `correct_shading_normal` from bdpt.rs. -/
def correct_shading_normal (isect : SurfaceInteraction) (wo wi : Vector3f)
    (mode : TransportMode) : ℚ :=
  if mode = TransportMode.Importance then
    let num : ℚ := vec3_abs_dot_nrm wo isect.shading_n * vec3_abs_dot_nrm wi isect.n
    let denom : ℚ := vec3_abs_dot_nrm wo isect.n * vec3_abs_dot_nrm wi isect.shading_n
    if denom = 0 then 0 else num / denom
  else 1

/-- The mutable state threaded through the `random_walk` loop: the ray,
the sampler, the throughput, the subpath under construction, the bounce
counter and the forward/reverse solid-angle densities. -/
structure RWState where
  ray : Ray
  sampler : Sampler
  beta : Spectrum
  path : List Vertex
  bounces : ℕ
  pdf_fwd : ℚ
  pdf_rev : ℚ

/-- Outcome of one iteration of the `random_walk` loop body: continue
with a new state, break out of the loop, or hit an out-of-bounds vector
index (a Rust panic). -/
inductive RwOut where
  | cont (st : RWState)
  | brk (st : RWState)
  | panicked

/-- One iteration of the `loop` in `random_walk` (bdpt.rs), translated
statement by statement. -/
def rwStep (scene : Scene) (mode : TransportMode) (max_depth : ℕ) (st : RWState) :
    RwOut :=
  match scene.intersect st.ray with
  | some isect0 =>
    -- compute scattering functions for _mode_ and skip over medium boundaries
    let isect := scene.compute_scattering isect0 st.ray true mode
    -- initialize _vertex_ with surface intersection information
    match st.path.get? st.bounces with
    | none => RwOut.panicked
    | some prev =>
      let vertex := Vertex.create_surface_interaction scene.sq isect st.beta st.pdf_fwd prev
      let bounces := st.bounces + 1
      if max_depth ≤ bounces then RwOut.brk { st with bounces := bounces }
      else
        match isect.bsdf with
        | some bsdf =>
          -- sample BSDF at current vertex and compute reverse probability
          let g2 := st.sampler.get_2d
          let bs := bsdf.sample_f isect.wo g2.1 bxdfAll
          if bs.f.is_black ∨ bs.pdfVal = 0 then
            RwOut.brk { st with bounces := bounces, sampler := g2.2 }
          else
            let beta1 :=
              st.beta.mul ((bs.f.scale (vec3_abs_dot_nrm bs.wi isect.shading_n)).divScalar
                bs.pdfVal)
            let pdf_rev0 := bsdf.pdf bs.wi isect.wo bxdfAll
            let vertex1 :=
              if bs.sampledType &&& bxdfSpecular ≠ 0 then { vertex with delta := true }
              else vertex
            let pdf_rev1 : ℚ := if bs.sampledType &&& bxdfSpecular ≠ 0 then 0 else pdf_rev0
            let pdf_fwd1 : ℚ := if bs.sampledType &&& bxdfSpecular ≠ 0 then 0 else bs.pdfVal
            let beta2 := beta1.scale (correct_shading_normal isect isect.wo bs.wi mode)
            let ray1 := scene.spawn_ray_surf isect bs.wi
            -- compute reverse area density at preceding vertex and update it
            let new_pdf_rev := vertex1.convert_density scene.sq pdf_rev1 prev
            let path1 := st.path.set (bounces - 1) { prev with pdf_rev := new_pdf_rev }
            -- store new vertex
            RwOut.cont
              { ray := ray1, sampler := g2.2, beta := beta2, path := path1 ++ [vertex1],
                bounces := bounces, pdf_fwd := pdf_fwd1, pdf_rev := pdf_rev1 }
        | none =>
          let ray1 := scene.spawn_ray_surf isect st.ray.d
          RwOut.cont { st with ray := ray1, bounces := bounces }
  | none =>
    -- capture escaped rays when tracing from the camera
    if mode = TransportMode.Radiance then
      let vertex :=
        Vertex.create_light_interaction (EndpointInteraction.new_ray st.ray) st.beta
          st.pdf_fwd
      RwOut.brk { st with path := st.path ++ [vertex], bounces := st.bounces + 1 }
    else RwOut.brk st

/-- The `random_walk` loop, driven by explicit fuel.  Every continuing
iteration increments the bounce counter and the loop breaks once the
counter reaches `max_depth`, so fuel `max_depth + 1` never runs out. -/
def rwLoop (scene : Scene) (mode : TransportMode) (max_depth : ℕ) :
    ℕ → RWState → Except RtAbort RWState
  | 0, _ => Except.error RtAbort.fuelOut
  | fuel + 1, st =>
    match rwStep scene mode max_depth st with
    | RwOut.cont st1 => rwLoop scene mode max_depth fuel st1
    | RwOut.brk st1 => Except.ok st1
    | RwOut.panicked => Except.error RtAbort.indexPanic

/-- The correction of subpath sampling densities for infinite area
lights performed after the loop in `random_walk`. -/
def densityCorrection (density_info : Option ℚ) (st : RWState) :
    Except RtAbort RWState :=
  match density_info with
  | none => Except.ok st
  | some pdf_pos =>
    if 0 < st.bounces then
      match st.path.get? 1 with
      | none => Except.error RtAbort.indexPanic
      | some v1 =>
        let pf : ℚ :=
          if v1.is_on_surface then pdf_pos * vec3_abs_dot_nrm st.ray.d v1.ng
          else pdf_pos
        Except.ok { st with path := st.path.set 1 { v1 with pdf_fwd := pf } }
    else Except.ok st

/-- Model of `random_walk` from bdpt.rs.  The result state carries the returned
bounce count together with the final values of the `&mut` parameters
(ray, sampler, throughput, subpath). -/
def random_walk (scene : Scene) (mode : TransportMode) (ray : Ray) (sampler : Sampler)
    (beta : Spectrum) (pdf : ℚ) (max_depth : ℕ) (path : List Vertex)
    (density_info : Option ℚ) : Except RtAbort RWState :=
  let st0 : RWState :=
    { ray := ray, sampler := sampler, beta := beta, path := path, bounces := 0,
      pdf_fwd := pdf, pdf_rev := 0 }
  if max_depth = 0 then Except.ok st0
  else
    match rwLoop scene mode max_depth (max_depth + 1) st0 with
    | Except.error e => Except.error e
    | Except.ok st => densityCorrection density_info st

/-- Converting a zero solid-angle density always yields a zero area
density, whatever the receiving vertex. -/
theorem convert_density_zero (sq : ℚ → ℚ) (v next : Vertex) :
    Vertex.convert_density sq v 0 next = 0 := by
  unfold Vertex.convert_density
  by_cases hinf : next.is_infinite_light
  · simp [hinf]
  · simp only [hinf, Bool.false_eq_true, if_false]
    by_cases hz : (Point3f.sub next.p v.p).length_squared = 0
    · simp [hz]
    · simp only [hz, if_false]
      by_cases hs : next.is_on_surface <;> simp [hs]

/-- Claim C6: a walk whose seed ray misses the scene appends exactly one
vertex in radiance (camera) mode — a `Light`-variant escape vertex — and
appends nothing in importance (light) mode. -/
theorem c6_escape_vertex (scene : Scene) (ray : Ray) (sampler : Sampler)
    (beta : Spectrum) (pdf : ℚ) (max_depth : ℕ) (path : List Vertex)
    (density_info : Option ℚ) (hd : 1 ≤ max_depth)
    (hmiss : scene.intersect ray = none) :
    (random_walk scene TransportMode.Radiance ray sampler beta pdf max_depth path none =
      Except.ok
        { ray := ray, sampler := sampler, beta := beta,
          path := path ++
            [Vertex.create_light_interaction (EndpointInteraction.new_ray ray) beta pdf],
          bounces := 1, pdf_fwd := pdf, pdf_rev := 0 } ∧
      (Vertex.create_light_interaction (EndpointInteraction.new_ray ray) beta
        pdf).vertex_type = VertexType.Light) ∧
    random_walk scene TransportMode.Importance ray sampler beta pdf max_depth path
        density_info =
      Except.ok
        { ray := ray, sampler := sampler, beta := beta, path := path, bounces := 0,
          pdf_fwd := pdf, pdf_rev := 0 } := by
  have hne : ¬ max_depth = 0 := by omega
  refine ⟨⟨?_, rfl⟩, ?_⟩
  · unfold random_walk
    rw [if_neg hne]
    have hstep :
        rwStep scene TransportMode.Radiance max_depth
          { ray := ray, sampler := sampler, beta := beta, path := path, bounces := 0,
            pdf_fwd := pdf, pdf_rev := 0 } =
          RwOut.brk
            { ray := ray, sampler := sampler, beta := beta,
              path := path ++
                [Vertex.create_light_interaction (EndpointInteraction.new_ray ray) beta pdf],
              bounces := 1, pdf_fwd := pdf, pdf_rev := 0 } := by
      unfold rwStep
      rw [hmiss]
      rfl
    simp [rwLoop, hstep, densityCorrection]
  · unfold random_walk
    rw [if_neg hne]
    have hstep :
        rwStep scene TransportMode.Importance max_depth
          { ray := ray, sampler := sampler, beta := beta, path := path, bounces := 0,
            pdf_fwd := pdf, pdf_rev := 0 } =
          RwOut.brk
            { ray := ray, sampler := sampler, beta := beta, path := path, bounces := 0,
              pdf_fwd := pdf, pdf_rev := 0 } := by
      unfold rwStep
      rw [hmiss]
      rfl
    cases density_info <;> simp [rwLoop, hstep, densityCorrection]

/-- A scene whose intersection oracle always misses. -/
def missScene : Scene :=
  { lights := [], infinite_lights := [], intersect := fun _ => none,
    compute_scattering := fun i _ _ _ => i,
    spawn_ray_surf := fun i d => { o := i.p, d := d, time := i.time }, sq := id }

theorem c6_escape_vertex_witness :
    1 ≤ 1 ∧
    random_walk missScene TransportMode.Importance Ray.zero ⟨[], []⟩ Spectrum.zero 1 1 []
        none =
      Except.ok
        { ray := Ray.zero, sampler := ⟨[], []⟩, beta := Spectrum.zero, path := [],
          bounces := 0, pdf_fwd := 1, pdf_rev := 0 } :=
  ⟨le_refl 1,
    (c6_escape_vertex missScene Ray.zero ⟨[], []⟩ Spectrum.zero 1 1 [] none (le_refl 1)
      rfl).2⟩

/-- A camera whose responses are constant; only used to build concrete
seed vertices. -/
def dummyCamera : Camera :=
  { generate_ray_differential := fun _ => (1, Ray.zero), pdf_we := fun _ => (1, 1) }

/-- A BSDF that always samples the `+z` direction from a specular lobe
with weight 1 and density 1/2. -/
def dummyBsdf : Bsdf :=
  { sample_f := fun _ _ _ =>
      { f := Spectrum.ofScalar 1, wi := ⟨0, 0, 1⟩, pdfVal := 2,
        sampledType := bxdfSpecular },
    pdf := fun _ _ _ => 3,
    num_components := fun _ => 1 }

/-- A surface interaction one unit up the `z` axis carrying `dummyBsdf`. -/
def isectZ1 : SurfaceInteraction :=
  { p := ⟨0, 0, 1⟩, time := 0, p_error := Vector3f.zero, wo := ⟨0, 0, -1⟩,
    n := ⟨0, 0, 1⟩, shading_n := ⟨0, 0, 1⟩, bsdf := some dummyBsdf }

/-- The same interaction with no scattering function. -/
def isectZ1NoBsdf : SurfaceInteraction := { isectZ1 with bsdf := none }

/-- The ray from the origin along `+z`. -/
def rayZup : Ray := { o := Point3f.zero, d := ⟨0, 0, 1⟩, time := 0 }

/-- A camera seed vertex at the origin. -/
def seedCam : Vertex := Vertex.create_camera dummyCamera rayZup (Spectrum.ofScalar 1)

/-- A scene in which every ray hits `isectZ1`. -/
def sceneC4 : Scene :=
  { lights := [], infinite_lights := [], intersect := fun _ => some isectZ1,
    compute_scattering := fun i _ _ _ => i,
    spawn_ray_surf := fun i d => { o := i.p, d := d, time := i.time }, sq := id }

/-- Claim C4 (refuted): with a remaining-depth budget of 1, the walk
intersects a surface, increments the bounce counter to 1, hits the
depth check and breaks *without* pushing the freshly built surface
vertex — it returns bounce count 1 while the subpath still holds only
its seed vertex, so the appended-vertex count differs from the returned
count. -/
theorem c4_depth_break_drops_vertex :
    (random_walk sceneC4 TransportMode.Radiance rayZup ⟨[], []⟩ (Spectrum.ofScalar 1) 1 1
        [seedCam] none).map (fun st => (st.bounces, st.path.length)) =
      Except.ok (1, 1) := by
  rfl

/-- A scene in which rays from the origin hit the no-BSDF interaction
and all other rays escape. -/
def sceneC5 : Scene :=
  { lights := [], infinite_lights := [],
    intersect := fun r => if r.o = Point3f.zero then some isectZ1NoBsdf else none,
    compute_scattering := fun i _ _ _ => i,
    spawn_ray_surf := fun i d => { o := i.p, d := d, time := i.time }, sq := id }

/-- Claim C5 (refuted): a boundary without a scattering function spawns a
continuation ray and adds no vertex, but the bounce counter has already
been incremented, so the step *does* consume depth: after one no-BSDF
hit and an escape in importance mode the walk returns bounce count 1
with the subpath still holding only its seed. -/
theorem c5_no_bsdf_consumes_depth :
    (random_walk sceneC5 TransportMode.Importance rayZup ⟨[], []⟩ (Spectrum.ofScalar 1) 1 5
        [seedCam] none).map (fun st => (st.bounces, st.path.length)) =
      Except.ok (1, 1) := by
  rfl

/-- A scene in which rays from the origin hit `isectZ1` (specular BSDF)
and all other rays escape. -/
def sceneC7 : Scene :=
  { lights := [], infinite_lights := [],
    intersect := fun r => if r.o = Point3f.zero then some isectZ1 else none,
    compute_scattering := fun i _ _ _ => i,
    spawn_ray_surf := fun i d => { o := i.p, d := d, time := i.time }, sq := id }

/-- Claim C7 counterexample: in a concrete walk whose first bounce draws
a specular (delta) BSDF sample from a unit-distance surface, the stored
delta vertex has `delta = true` but keeps the non-zero area density
`pdf_fwd = 1` assigned at creation, contradicting the claim that
delta-sampled vertices have `pdf_fwd = 0` immediately after creation. -/
theorem c7_delta_vertex_counterexample :
    (random_walk sceneC7 TransportMode.Radiance rayZup ⟨[], []⟩ (Spectrum.ofScalar 1) 1 2
        [seedCam] none).map
        (fun st => (st.path.get? 1).map (fun v => (v.delta, v.pdf_fwd, v.pdf_rev))) =
      Except.ok (some (true, 1, 0)) ∧ (1 : ℚ) ≠ 0 := by
  refine ⟨?_, by norm_num⟩
  norm_num [random_walk, rwLoop, rwStep, densityCorrection, sceneC7, rayZup, seedCam,
    isectZ1, dummyBsdf, dummyCamera, Vertex.create_surface_interaction,
    Vertex.create_camera, Vertex.create_light_interaction, Vertex.new,
    Vertex.convert_density, Vertex.is_infinite_light, Vertex.is_on_surface, Vertex.ng,
    Vertex.p, EndpointInteraction.new_camera, EndpointInteraction.new_light,
    EndpointInteraction.new_ray, EndpointInteraction.new, Sampler.get_2d, Sampler.get_1d,
    Spectrum.is_black, Spectrum.ofScalar, Spectrum.mul, Spectrum.scale, Spectrum.divScalar,
    correct_shading_normal, Point3f.sub, Vector3f.length_squared, Vector3f.smul,
    Vector3f.neg, nrm_abs_dot_vec3, vec3_abs_dot_nrm, Normal3f.fromVector, Point3f.zero,
    Vector3f.zero, Normal3f.zero, bxdfAll, bxdfSpecular, Except.map]

/-- Claim C7 as amended: when the BSDF sample at the new vertex is drawn
from a specular (delta) lobe, the stored vertex is marked `delta = true`
and carries `pdf_rev = 0`, the previous vertex's `pdf_rev` is
back-patched to zero, and the forward and reverse densities propagated
by the walk are both forced to zero — while the delta vertex's own
`pdf_fwd` keeps the area-converted incoming density assigned at
creation. -/
theorem c7_delta_vertex_amended (scene : Scene) (mode : TransportMode) (max_depth : ℕ)
    (st : RWState) (isect0 : SurfaceInteraction) (prev : Vertex) (bsdf : Bsdf)
    (hisect : scene.intersect st.ray = some isect0)
    (hprev : st.path.get? st.bounces = some prev)
    (hdepth : st.bounces + 1 < max_depth)
    (hbsdf : (scene.compute_scattering isect0 st.ray true mode).bsdf = some bsdf)
    (hblack :
      (bsdf.sample_f (scene.compute_scattering isect0 st.ray true mode).wo
        (st.sampler.get_2d).1 bxdfAll).f.is_black = false)
    (hpdf :
      (bsdf.sample_f (scene.compute_scattering isect0 st.ray true mode).wo
        (st.sampler.get_2d).1 bxdfAll).pdfVal ≠ 0)
    (hspec :
      (bsdf.sample_f (scene.compute_scattering isect0 st.ray true mode).wo
        (st.sampler.get_2d).1 bxdfAll).sampledType &&& bxdfSpecular ≠ 0) :
    (∃ st1, rwStep scene mode max_depth st = RwOut.cont st1) ∧
    ∀ st1, rwStep scene mode max_depth st = RwOut.cont st1 →
      st1.pdf_fwd = 0 ∧ st1.pdf_rev = 0 ∧
      st1.path =
        st.path.set st.bounces { prev with pdf_rev := 0 } ++
          [{ Vertex.create_surface_interaction scene.sq
              (scene.compute_scattering isect0 st.ray true mode) st.beta st.pdf_fwd prev
              with delta := true }] := by
  have hle : ¬ max_depth ≤ st.bounces + 1 := by omega
  have hor : ¬ ((bsdf.sample_f (scene.compute_scattering isect0 st.ray true mode).wo
        (st.sampler.get_2d).1 bxdfAll).f.is_black = true ∨
      (bsdf.sample_f (scene.compute_scattering isect0 st.ray true mode).wo
        (st.sampler.get_2d).1 bxdfAll).pdfVal = 0) := by
    rintro (hb | hp)
    · rw [hblack] at hb
      exact Bool.false_ne_true hb
    · exact hpdf hp
  constructor
  · unfold rwStep
    simp only [hisect, hprev, hbsdf, if_neg hle, if_neg hor, if_pos hspec]
    exact ⟨_, rfl⟩
  · intro st1 hstep
    unfold rwStep at hstep
    simp only [hisect, hprev, hbsdf, if_neg hle, if_neg hor, if_pos hspec] at hstep
    cases hstep
    refine ⟨rfl, rfl, ?_⟩
    simp only [Nat.add_sub_cancel, convert_density_zero]

/-- The walk state entering the first iteration of the counterexample
walk of claim C7. -/
def stC7init : RWState :=
  { ray := rayZup, sampler := ⟨[], []⟩, beta := Spectrum.ofScalar 1, path := [seedCam],
    bounces := 0, pdf_fwd := 1, pdf_rev := 0 }

theorem c7_delta_vertex_amended_witness :
    (∃ st1, rwStep sceneC7 TransportMode.Radiance 2 stC7init = RwOut.cont st1) ∧
    ∀ st1, rwStep sceneC7 TransportMode.Radiance 2 stC7init = RwOut.cont st1 →
      st1.pdf_fwd = 0 ∧ st1.pdf_rev = 0 ∧
      st1.path =
        stC7init.path.set stC7init.bounces { seedCam with pdf_rev := 0 } ++
          [{ Vertex.create_surface_interaction sceneC7.sq
              (sceneC7.compute_scattering isectZ1 stC7init.ray true TransportMode.Radiance)
              stC7init.beta stC7init.pdf_fwd seedCam with delta := true }] :=
  c7_delta_vertex_amended sceneC7 TransportMode.Radiance 2 stC7init isectZ1 seedCam
    dummyBsdf rfl rfl (by decide) rfl (by decide) (by decide) (by decide)

/-- Model of `std::sync::Arc`, tracking the reference count of the shared cell as
seen by each handle at its program point (the generators use `Arc` in
straight-line code, so the handle's count field is the cell's true
count at every step).  `get_mut` yields the payload only for a uniquely
owned cell, exactly as in the Rust standard library. -/
structure Arc (α : Type) where
  value : α
  strong : ℕ

/-- Model of `Arc::new`: a fresh cell with reference count 1. -/
def Arc.new {α : Type} (a : α) : Arc α := ⟨a, 1⟩

/-- Model of `Arc::clone`: a new handle; the shared count grows by one. -/
def Arc.clone {α : Type} (a : Arc α) : Arc α := ⟨a.value, a.strong + 1⟩

/-- Model of `Arc::get_mut`: `Some` only when the cell is uniquely referenced. -/
def Arc.get_mut {α : Type} (a : Arc α) : Option α :=
  if a.strong = 1 then some a.value else none

/-- Modelled from the spec: the light-selection distribution contract
(§6): per-entry unnormalized weight (`func`), total integral
(`func_int`), entry count and discrete sampling
(`core::sampling::Distribution1D`). -/
structure Distribution1D where
  func : List ℚ
  func_int : ℚ
  sample_discrete : ℚ → ℕ × ℚ

/-- Model of `Distribution1D::count`: the number of entries. -/
def Distribution1D.count (d : Distribution1D) : ℕ := d.func.length

/-- Model of `generate_camera_subpath` from bdpt.rs.  The differential scaling by
`1/sqrt(samples per pixel)` touches only the unmodelled ray
differentials. -/
def generate_camera_subpath (scene : Scene) (sampler : Sampler) (max_depth : ℕ)
    (camera : Camera) (p_film : ℚ × ℚ) :
    Except RtAbort (ℕ × Arc (List Vertex) × Point3f × ℚ) :=
  let path : Arc (List Vertex) := Arc.new []
  if max_depth = 0 then Except.ok (0, path.clone, Point3f.zero, 0)
  else
    let g1 := sampler.get_1d
    let g2 := g1.2.get_2d
    let camera_sample : CameraSample := { p_film := p_film, time := g1.1, p_lens := g2.1 }
    let gen := camera.generate_ray_differential camera_sample
    let beta := Spectrum.ofScalar gen.1
    let ray := gen.2
    -- generate first vertex on camera subpath and start random walk
    let vertex := Vertex.create_camera camera ray beta
    let p := vertex.p
    let time := vertex.time
    match path.get_mut with
    | none => Except.error RtAbort.unwrapPanic
    | some vec =>
      let path : Arc (List Vertex) := { value := vec ++ [vertex], strong := path.strong }
      let pw := camera.pdf_we ray
      match path.clone.get_mut with
      | none => Except.error RtAbort.unwrapPanic
      | some vec2 =>
        -- never reached: the freshly cloned handle has reference count 2
        match random_walk scene TransportMode.Radiance ray g2.2 beta pw.2 (max_depth - 1)
            vec2 none with
        | Except.error e => Except.error e
        | Except.ok st => Except.ok (st.bounces + 1, path.clone, p, time)

/-- Model of `generate_light_subpath` from bdpt.rs.  `light_pdf` starts as
`Some(0.0)` and `sample_discrete` writes through it, so the `if let`
around the walk always takes the `Some` branch. -/
def generate_light_subpath (scene : Scene) (sampler : Sampler) (max_depth : ℕ)
    (time : ℚ) (light_distr : Distribution1D) :
    Except RtAbort (ℕ × Arc (List Vertex)) :=
  let path : Arc (List Vertex) := Arc.new []
  if max_depth = 0 then Except.ok (0, path.clone)
  else
    let g1 := sampler.get_1d
    let sd := light_distr.sample_discrete g1.1
    match scene.lights.get? sd.1 with
    | none => Except.error RtAbort.indexPanic
    | some light =>
      let g2 := g1.2.get_2d
      let g3 := g2.2.get_2d
      let ls := light.sample_le g2.1 g3.1 time
      if ls.pdf_pos = 0 ∨ ls.pdf_dir = 0 ∨ ls.le.is_black then Except.ok (0, path.clone)
      else
        let vertex := Vertex.create_light light ls.ray ls.n_light ls.le (ls.pdf_pos * sd.2)
        let is_infinite_light := vertex.is_infinite_light
        match path.get_mut with
        | none => Except.error RtAbort.unwrapPanic
        | some vec =>
          let path : Arc (List Vertex) := { value := vec ++ [vertex], strong := path.strong }
          let beta := (ls.le.scale (nrm_abs_dot_vec3 ls.n_light ls.ray.d)).divScalar
            (sd.2 * ls.pdf_pos * ls.pdf_dir)
          match path.clone.get_mut with
          | none => Except.error RtAbort.unwrapPanic
          | some vec2 =>
            -- never reached: the freshly cloned handle has reference count 2
            let walk :=
              if is_infinite_light then
                random_walk scene TransportMode.Importance ls.ray g3.2 beta ls.pdf_dir
                  (max_depth - 1) vec2 (some ls.pdf_pos)
              else
                random_walk scene TransportMode.Importance ls.ray g3.2 beta ls.pdf_dir
                  (max_depth - 1) vec2 none
            match walk with
            | Except.error e => Except.error e
            | Except.ok st => Except.ok (st.bounces + 1, path.clone)

/-- Claim C10: in both generators the call
`Arc::get_mut(&mut path.clone()).unwrap()` operates on a freshly cloned
handle whose cell has reference count 2, so `get_mut` yields `None` and
`unwrap` panics: `generate_camera_subpath` never returns normally for
`max_depth ≥ 1`, and `generate_light_subpath` never returns normally
once the sampled light index is in range, both emission densities are
non-zero and the emission is non-black. -/
theorem c10_arc_get_mut_panics :
    (∀ (scene : Scene) (sampler : Sampler) (max_depth : ℕ) (camera : Camera)
      (p_film : ℚ × ℚ), 1 ≤ max_depth →
      generate_camera_subpath scene sampler max_depth camera p_film =
        Except.error RtAbort.unwrapPanic) ∧
    (∀ (scene : Scene) (sampler : Sampler) (max_depth : ℕ) (time : ℚ)
      (light_distr : Distribution1D) (light : Light) (ls : LeSample), 1 ≤ max_depth →
      scene.lights.get? (light_distr.sample_discrete (sampler.get_1d).1).1 = some light →
      light.sample_le ((sampler.get_1d).2.get_2d).1
          (((sampler.get_1d).2.get_2d).2.get_2d).1 time = ls →
      ls.pdf_pos ≠ 0 → ls.pdf_dir ≠ 0 → ls.le.is_black = false →
      generate_light_subpath scene sampler max_depth time light_distr =
        Except.error RtAbort.unwrapPanic) := by
  constructor
  · intro scene sampler max_depth camera p_film hd
    unfold generate_camera_subpath
    rw [if_neg (by omega : ¬ max_depth = 0)]
    simp [Arc.new, Arc.clone, Arc.get_mut]
  · intro scene sampler max_depth time light_distr light ls hd hlight hls hpp hpd hbl
    have hor : ¬ (ls.pdf_pos = 0 ∨ ls.pdf_dir = 0 ∨ ls.le.is_black = true) := by
      rintro (h | h | h)
      · exact hpp h
      · exact hpd h
      · rw [hbl] at h
        exact Bool.false_ne_true h
    unfold generate_light_subpath
    rw [if_neg (by omega : ¬ max_depth = 0)]
    simp only [hlight, hls, if_neg hor]
    simp [Arc.new, Arc.clone, Arc.get_mut]

/-- A light emitting constant unit radiance with unit densities. -/
def brightLight : Light :=
  { flags := 0,
    sample_le := fun _ _ _ =>
      { le := Spectrum.ofScalar 1, ray := rayZup, n_light := ⟨0, 0, 1⟩,
        pdf_pos := 1, pdf_dir := 1 },
    pdf_li := fun _ _ => 1 }

/-- A scene holding the single light `brightLight`. -/
def lightScene : Scene := { missScene with lights := [brightLight] }

/-- A one-entry light-selection distribution. -/
def unitDistr : Distribution1D :=
  { func := [1], func_int := 1, sample_discrete := fun _ => (0, 1) }

theorem c10_arc_get_mut_panics_witness :
    generate_camera_subpath missScene ⟨[], []⟩ 1 dummyCamera (0, 0) =
      Except.error RtAbort.unwrapPanic ∧
    generate_light_subpath lightScene ⟨[], []⟩ 1 0 unitDistr =
      Except.error RtAbort.unwrapPanic :=
  ⟨c10_arc_get_mut_panics.1 missScene ⟨[], []⟩ 1 dummyCamera (0, 0) (le_refl 1),
    c10_arc_get_mut_panics.2 lightScene ⟨[], []⟩ 1 0 unitDistr brightLight
      { le := Spectrum.ofScalar 1, ray := rayZup, n_light := ⟨0, 0, 1⟩,
        pdf_pos := 1, pdf_dir := 1 }
      (le_refl 1) rfl rfl (by decide) (by decide) (by decide)⟩

/-- The body of `connect_bdpt` past the invalid-connection pre-check.
Every contribution case is design-level commented-out code in the
source; only the `t = 1` case with a connectible light tail draws a 2D
sample before the zero spectrum is returned. -/
def connect_bdpt_rest (scene : Scene) (light_vertices camera_vertices : List Vertex)
    (s t : ℕ) (sampler : Sampler) (l : Spectrum) : Except RtAbort (Spectrum × Sampler) :=
  if s = 0 then
    -- interpret the camera subpath as a complete path (not implemented)
    Except.ok (l, sampler)
  else if t = 1 then
    -- sample a point on the camera and connect it to the light subpath
    match light_vertices.get? (s - 1) with
    | none => Except.error RtAbort.indexPanic
    | some qs =>
      if qs.is_connectible then Except.ok (l, (sampler.get_2d).2)
      else Except.ok (l, sampler)
  else if s = 1 then
    -- sample a point on a light and connect it to the camera subpath (not implemented)
    Except.ok (l, sampler)
  else
    -- all other bidirectional connection cases (not implemented)
    Except.ok (l, sampler)

/-- Model of `connect_bdpt` from bdpt.rs. -/
def connect_bdpt (scene : Scene) (light_vertices camera_vertices : List Vertex)
    (s t : ℕ) (sampler : Sampler) : Except RtAbort (Spectrum × Sampler) :=
  let l : Spectrum := Spectrum.zero
  -- ignore invalid connections related to infinite area lights
  if 1 < t ∧ s ≠ 0 then
    match camera_vertices.get? (t - 1) with
    | none => Except.error RtAbort.indexPanic
    | some cv =>
      if cv.vertex_type = VertexType.Light then Except.ok (Spectrum.zero, sampler)
      else connect_bdpt_rest scene light_vertices camera_vertices s t sampler l
  else connect_bdpt_rest scene light_vertices camera_vertices s t sampler l

/-- Claim C9 counterexample: with an empty camera subpath and indices
`s = 1`, `t = 2`, the invalid-connection pre-check indexes
`camera_vertices[t-1]` out of bounds and panics instead of returning the
black spectrum. -/
theorem c9_connect_bdpt_counterexample :
    connect_bdpt missScene [] [] 1 2 ⟨[], []⟩ = Except.error RtAbort.indexPanic := rfl

/-- Claim C9 as amended: whenever the two indices are in range for the
branches that dereference them (`t ≤ camera length` when `t > 1` and
`s ≠ 0`; `s ≤ light length` when `t = 1` and `s ≠ 0`), `connect_bdpt`
returns the black spectrum, and the sampler is advanced by exactly one
2D sample in the `t = 1` case with a connectible light-subpath tail and
otherwise left untouched. -/
theorem c9_connect_bdpt_amended (scene : Scene) (lv cv : List Vertex) (s t : ℕ)
    (sampler : Sampler)
    (hcam : 1 < t → s ≠ 0 → t - 1 < cv.length)
    (hlig : t = 1 → s ≠ 0 → s - 1 < lv.length) :
    connect_bdpt scene lv cv s t sampler =
      Except.ok (Spectrum.zero,
        if t = 1 ∧ s ≠ 0 ∧ (lv.get? (s - 1)).map Vertex.is_connectible = some true
        then (sampler.get_2d).2 else sampler) ∧
    Spectrum.zero.is_black = true := by
  refine ⟨?_, rfl⟩
  unfold connect_bdpt connect_bdpt_rest
  by_cases h1 : 1 < t ∧ s ≠ 0
  · rw [if_pos h1]
    obtain ⟨ht, hs⟩ := h1
    have hlen : t - 1 < cv.length := hcam ht hs
    have hcv : cv.get? (t - 1) = some (cv.get ⟨t - 1, hlen⟩) := List.get?_eq_get hlen
    simp only [hcv]
    have ht1 : ¬ t = 1 := by omega
    by_cases hl : (cv.get ⟨t - 1, hlen⟩).vertex_type = VertexType.Light
    · rw [if_pos hl, if_neg (by simp [ht1])]
    · rw [if_neg hl, if_neg hs, if_neg ht1]
      by_cases hs1 : s = 1
      · rw [if_pos hs1, if_neg (by simp [ht1])]
      · rw [if_neg hs1, if_neg (by simp [ht1])]
  · rw [if_neg h1]
    by_cases hs0 : s = 0
    · rw [if_pos hs0, if_neg (by simp [hs0])]
    · rw [if_neg hs0]
      by_cases ht : t = 1
      · rw [if_pos ht]
        have hlen : s - 1 < lv.length := hlig ht hs0
        have hlv : lv.get? (s - 1) = some (lv.get ⟨s - 1, hlen⟩) := List.get?_eq_get hlen
        simp only [hlv]
        cases hcon : (lv.get ⟨s - 1, hlen⟩).is_connectible
        · rw [if_neg (by simp [hcon]), if_neg (by simp [hlv]; exact fun _ _ => hcon)]
        · rw [if_pos (by simp [hcon]), if_pos ⟨ht, hs0, by simpa using hcon⟩]
      · rw [if_neg ht]
        have hne : ¬ (t = 1 ∧ s ≠ 0 ∧ (lv.get? (s - 1)).map Vertex.is_connectible =
            some true) := by
          rintro ⟨h, -, -⟩
          exact ht h
        by_cases hs1 : s = 1
        · rw [if_pos hs1, if_neg hne]
        · rw [if_neg hs1, if_neg hne]

/-- A medium vertex: always connectible. -/
def mediumVertex : Vertex :=
  { vertex_type := VertexType.Medium, beta := Spectrum.zero, ei := none, si := none,
    delta := false, pdf_fwd := 0, pdf_rev := 0 }

theorem c9_connect_bdpt_amended_witness :
    connect_bdpt missScene [mediumVertex] [] 1 1 ⟨[], [(1, 1)]⟩ =
      Except.ok (Spectrum.zero,
        if 1 = 1 ∧ 1 ≠ 0 ∧
            (([mediumVertex] : List Vertex).get? 0).map Vertex.is_connectible = some true
        then ((⟨[], [(1, 1)]⟩ : Sampler).get_2d).2 else ⟨[], [(1, 1)]⟩) ∧
    Spectrum.zero.is_black = true :=
  c9_connect_bdpt_amended missScene [mediumVertex] [] 1 1 ⟨[], [(1, 1)]⟩
    (fun h _ => absurd h (by decide)) (fun _ _ => by decide)

/-- Model of `infinite_light_density` from bdpt.rs.  The source leaves the
light-to-distribution index lookup as a TODO and hard-codes `index = 0`,
so every infinite light is weighted by `func[0]`. -/
def infinite_light_density (scene : Scene) (light_distr : Distribution1D)
    (w : Vector3f) : ℚ :=
  let pdf := scene.infinite_lights.foldl
    (fun pdf light =>
      pdf + light.pdf_li defaultSurfaceInteraction w.neg * light_distr.func.getD 0 0) 0
  pdf / (light_distr.func_int * (light_distr.count : ℚ))

/-- The per-light weighted sum of directional densities, carrying the
running distribution index. -/
def weightedDensitySum (w : Vector3f) (light_distr : Distribution1D) :
    List Light → ℕ → ℚ
  | [], _ => 0
  | l :: ls, i =>
    l.pdf_li defaultSurfaceInteraction w.neg * light_distr.func.getD i 0 +
      weightedDensitySum w light_distr ls (i + 1)

/-- Modelled from the spec: the aggregation formula of §4.6 / claim C8 —
each infinite light's directional emission density at the given
direction, weighted by that particular light's own entry of the
unnormalized selection weights, normalized by the distribution's total
integral times its entry count. -/
def infinite_light_density_claim (scene : Scene) (light_distr : Distribution1D)
    (w : Vector3f) : ℚ :=
  weightedDensitySum w light_distr scene.infinite_lights 0 /
    (light_distr.func_int * (light_distr.count : ℚ))

/-- An infinite light with unit directional density. -/
def infLightA : Light :=
  { flags := lightFlagInfinite,
    sample_le := fun _ _ _ =>
      { le := Spectrum.zero, ray := Ray.zero, n_light := Normal3f.zero,
        pdf_pos := 0, pdf_dir := 0 },
    pdf_li := fun _ _ => 1 }

/-- A scene with two copies of the unit-density infinite light. -/
def sceneC8 : Scene := { missScene with infinite_lights := [infLightA, infLightA] }

/-- Selection weights 2 and 5 for the two infinite lights. -/
def distrC8 : Distribution1D :=
  { func := [2, 5], func_int := 7, sample_discrete := fun _ => (0, 2/7) }

/-- Claim C8 (refuted): the source weights every infinite light by
`func[0]` (the index lookup is a hard-coded TODO), yielding
`(1·2 + 1·2)/(7·2) = 2/7` on a scene with two unit-density infinite
lights of selection weights 2 and 5, whereas the claimed per-light
weighting yields `(1·2 + 1·5)/(7·2) = 1/2`. -/
theorem c8_infinite_light_density_index_bug :
    infinite_light_density sceneC8 distrC8 ⟨0, 0, 1⟩ = 2/7 ∧
    infinite_light_density_claim sceneC8 distrC8 ⟨0, 0, 1⟩ = 1/2 ∧
    (2/7 : ℚ) ≠ 1/2 := by
  refine ⟨?_, ?_, by norm_num⟩
  · norm_num [infinite_light_density, sceneC8, distrC8, infLightA, missScene,
      Distribution1D.count, List.foldl]
  · norm_num [infinite_light_density_claim, weightedDensitySum, sceneC8, distrC8,
      infLightA, missScene, Distribution1D.count]

end RsPbrt
